import Mathlib

/-!
Verification of the pocket-sync UI excerpt: the `Layout` view switcher
(`src/components/layout/index.tsx`), the `CoreInfo` panel
(`src/components/cores/info/index.tsx`) and the recoil atoms
(`src/recoil/atoms.ts`), shallowly embedded as pure Lean functions over an
explicit markup tree.
-/

namespace PocketSync

/-- A rendered markup node: an element with a tag name, a list of
string-valued attributes (props), and children, or a text node.
Child React components (`Screenshots`, `Controls`, `PlatformImage`,
`Version`, `Link`, `Releases`, `Loader`), whose sources are outside the
excerpt, are rendered as atomic elements tagged with the component name and
carrying their string props as attributes. -/
inductive Node where
  | el : String → List (String × String) → List Node → Node
  | text : String → Node

/-- Tag of an element node; text nodes have the empty tag. -/
def tagOf : Node → String
  | Node.el t _ _ => t
  | Node.text _ => ""

/-- Attributes of an element node. -/
def attrsOf : Node → List (String × String)
  | Node.el _ a _ => a
  | Node.text _ => []

/-- Children of an element node. -/
def childrenOf : Node → List Node
  | Node.el _ _ c => c
  | Node.text _ => []

/-- Value of an attribute, if set. -/
def attrValue (n : Node) (key : String) : Option String :=
  (attrsOf n).lookup key

/-! ### Layout (src/components/layout/index.tsx) -/

/-- `const views = ["Games", "Cores", "Screenshots", "Saves"]`. -/
def views : List String := ["Games", "Cores", "Screenshots", "Saves"]

/-- `useState("")`: the initial value of the `viewName` state. -/
def initialViewName : String := ""

/-- `onClick={() => setViewName(v)}`: clicking the menu item labelled `v`
replaces the `viewName` state with `v`. -/
def clickMenuItem (viewName v : String) : String := v

/-- The class string of the sidebar menu item labelled `v` when the current
state is `viewName`:
`layout__sidebar-menu-item ${viewName === v ? "layout__sidebar-menu-item--active" : ""}`. -/
def menuItemClass (viewName v : String) : String :=
  "layout__sidebar-menu-item " ++
    (if viewName = v then "layout__sidebar-menu-item--active" else "")

/-- The class string of a visually-active menu item. -/
def activeMenuItemClass : String :=
  "layout__sidebar-menu-item layout__sidebar-menu-item--active"

/-- The sidebar menu: one `div` per label in `views`. -/
def renderSidebarMenu (viewName : String) : List Node :=
  views.map fun v =>
    Node.el "div" [("className", menuItemClass viewName v), ("key", v)]
      [Node.text v]

/-- Children of the content region:
`{viewName === "Screenshots" && <Screenshots />}`; a `false` JSX expression
renders nothing. -/
def layoutContentChildren (viewName : String) : List Node :=
  if viewName = "Screenshots" then [Node.el "Screenshots" [] []] else []

/-- The whole `Layout` render for a given `viewName` state. -/
def renderLayout (viewName : String) : Node :=
  Node.el "div" [("className", "layout")]
    [Node.el "div" [("className", "layout__sidebar-menu")]
       (renderSidebarMenu viewName),
     Node.el "div" [("className", "layout__content")]
       [Node.el "Suspense" [("fallback", "Loader")]
          (layoutContentChildren viewName)]]

/-- States of the `Layout` component's `viewName` reachable through its UI:
the initial `useState("")` value, and any state produced by clicking one of
the rendered menu items (which exist only for labels in `views`). -/
inductive LayoutReachable : String → Prop where
  | init : LayoutReachable initialViewName
  | click : ∀ s v, LayoutReachable s → v ∈ views →
      LayoutReachable (clickMenuItem s v)

/-! ### Recoil atoms (src/recoil/atoms.ts) -/

/-- The global recoil store declared in `atoms.ts`: the selected pocket
path, the model colour, and the three invalidation counters. -/
structure RecoilState where
  pocketPath : Option String
  pocketModelColour : String
  fileSystemInvalidation : Nat
  inventoryInvalidation : Nat
  configInvalidation : Nat

/-- The atom defaults: `pocketPathAtom` is `null`, `PocketModelColourAtom`
is `"black"`, and each invalidation atom defaults to `Date.now()` at store
creation, here the parameter `now`. -/
def initialRecoilState (now : Nat) : RecoilState :=
  { pocketPath := none
    pocketModelColour := "black"
    fileSystemInvalidation := now
    inventoryInvalidation := now
    configInvalidation := now }

/-- Modelled from the spec: the excerpt declares `fileSystemInvalidationAtom`
but contains no write (bump) site for it; per the spec the counters are
"monotonically-replaced invalidation timestamps" whose contract is strict
inequality on each update, so a bump replaces exactly this counter with a
fresh clock value `t`. -/
def bumpFileSystemInvalidation (s : RecoilState) (t : Nat) : RecoilState :=
  { s with fileSystemInvalidation := t }

/-- Modelled from the spec: bump of `iventoryInvalidationAtom`, whose write
sites are outside the excerpt; replaces exactly the inventory counter with a
fresh clock value `t`. -/
def bumpInventoryInvalidation (s : RecoilState) (t : Nat) : RecoilState :=
  { s with inventoryInvalidation := t }

/-- Modelled from the spec: bump of `configInvalidationAtom`, whose write
sites are outside the excerpt; replaces exactly the config counter with a
fresh clock value `t`. -/
def bumpConfigInvalidation (s : RecoilState) (t : Nat) : RecoilState :=
  { s with configInvalidation := t }

/-! ### CoreInfo data model (records consumed by
src/components/cores/info/index.tsx) -/

/-- `core.framework.dock`. -/
structure Dock where
  supported : Bool
  analog_output : Bool

/-- `core.framework.hardware`; the cartridge adapter identifier, with `-1`
the reserved sentinel meaning no cartridge adapter. -/
structure Hardware where
  cartridge_adapter : Int

/-- `core.framework`. -/
structure Framework where
  sleep_supported : Bool
  dock : Dock
  hardware : Hardware

/-- `core.metadata`; `url` and `date_release` are optional strings. -/
structure Metadata where
  shortname : String
  description : String
  author : String
  url : Option String
  date_release : Option String
  platform_ids : List String

/-- A core record: metadata plus framework capability block. -/
structure Core where
  metadata : Metadata
  framework : Framework

/-- The record returned by `CoreInfoSelectorFamily(coreName)`. -/
structure CoreInfoRecord where
  core : Core

/-- `inventoryItem.repository`. -/
structure Repository where
  platform : String

/-- The record returned by `useInventoryItem(coreName)` when present. -/
structure InventoryItem where
  repository : Repository

/-! ### CoreInfo render (src/components/cores/info/index.tsx) -/

/-- The `checked` DOM attribute rendered for a boolean `checked` prop. -/
def checkedAttr (b : Bool) : String := if b then "true" else "false"

/-- One capability row: a `strong` label next to a read-only checkbox. -/
def checkboxRow (label : String) (checked : Bool) : Node :=
  Node.el "div" [("className", "core-info__info-row")]
    [Node.el "strong" [] [Node.text label],
     Node.el "input"
       [("readOnly", "true"), ("type", "checkbox"),
        ("checked", checkedAttr checked)] []]

/-- The URL row rendered when `coreInfo.core.metadata.url` is truthy: the
URL is both the `Link` target (`href`) and the link text. -/
def urlInfoRow (u : String) : Node :=
  Node.el "div" [("className", "core-info__info-row")]
    [Node.el "strong" [] [Node.text "URL:"],
     Node.el "Link" [("href", u)] [Node.text u]]

/-- `{coreInfo.core.metadata.url && (...)}`: JavaScript truthiness of an
optional string is false exactly for an absent value and for the empty
string, so those render nothing. -/
def urlInfoRows (m : Metadata) : List Node :=
  match m.url with
  | none => []
  | some u => if u = "" then [] else [urlInfoRow u]

/-- The release-date row rendered when `date_release` is truthy. -/
def dateReleaseInfoRow (d : String) : Node :=
  Node.el "div" [("className", "core-info__info-row")]
    [Node.el "strong" [] [Node.text "Release Date:"],
     Node.text d]

/-- `{coreInfo.core.metadata.date_release && (...)}`: truthiness again. -/
def dateReleaseInfoRows (m : Metadata) : List Node :=
  match m.date_release with
  | none => []
  | some d => if d = "" then [] else [dateReleaseInfoRow d]

/-- The `Releases` sub-panel element, carrying its inventory-item prop. -/
def releasesPanel (it : InventoryItem) : Node :=
  Node.el "Releases" [("repositoryPlatform", it.repository.platform)] []

/-- `{inventoryItem && inventoryItem.repository.platform === "github" &&
(<Releases inventoryItem={inventoryItem} />)}`. -/
def releasesNodes (inv : Option InventoryItem) : List Node :=
  match inv with
  | none => []
  | some it =>
      if it.repository.platform = "github" then [releasesPanel it] else []

/-- The description paragraph at the top of the info section. -/
def descriptionRow (d : String) : Node := Node.el "p" [] [Node.text d]

/-- The version row, delegating to the `Version` component. -/
def versionRow (coreName : String) : Node :=
  Node.el "div" [("className", "core-info__info-row")]
    [Node.el "strong" [] [Node.text "Version:"],
     Node.el "Version" [("coreName", coreName)] []]

/-- The author row: author image next to the author name. -/
def authorRow (authorImageSrc author : String) : Node :=
  Node.el "div" [("className", "core-info__info-row")]
    [Node.el "strong" [] [Node.text "Author:"],
     Node.el "div" [("className", "core-info__author-tag")]
       [Node.el "img" [("src", authorImageSrc)] [],
        Node.text author]]

/-- The children of the `section.core-info__info` element, in source order:
description paragraph, version row, author row, conditional URL row,
conditional release-date row, the four checkbox rows, and the conditional
releases sub-panel. -/
def infoSectionRows (coreName : String) (info : CoreInfoRecord)
    (authorImageSrc : String) (inv : Option InventoryItem) : List Node :=
  [descriptionRow info.core.metadata.description,
   versionRow coreName,
   authorRow authorImageSrc info.core.metadata.author]
  ++ urlInfoRows info.core.metadata
  ++ dateReleaseInfoRows info.core.metadata
  ++ [checkboxRow "Supports Sleep:" info.core.framework.sleep_supported,
      checkboxRow "Supports Dock:" info.core.framework.dock.supported,
      checkboxRow "Supports Dock Analog:"
        info.core.framework.dock.analog_output,
      checkboxRow "Supports Cartridges:"
        (info.core.framework.hardware.cartridge_adapter != -1)]
  ++ releasesNodes inv

/-- The whole `CoreInfo` render: back control, title, one `PlatformImage`
per platform id, and the info section. -/
def renderCoreInfo (coreName : String) (info : CoreInfoRecord)
    (authorImageSrc : String) (inv : Option InventoryItem) : Node :=
  Node.el "div" [("className", "core-info")]
    ([Node.el "Controls"
        [("type", "back-button"), ("text", "Back to list")] [],
      Node.el "h3" [("className", "core-info__title")]
        [Node.text info.core.metadata.shortname]]
     ++ info.core.metadata.platform_ids.map (fun platformId =>
          Node.el "PlatformImage"
            [("className", "core-info__image"), ("platformId", platformId),
             ("key", platformId)] [])
     ++ [Node.el "section" [("className", "core-info__info")]
           (infoSectionRows coreName info authorImageSrc inv)])

/-- The environment `CoreInfo` reads: the selector families keyed by core
name, the inventory hook, and the rest of the recoil store (which the
component does not read). -/
structure AppEnv where
  coreInfoOf : String → CoreInfoRecord
  coreAuthorImageOf : String → String
  inventoryItemOf : String → Option InventoryItem
  recoil : RecoilState

/-- The `CoreInfo` component as mounted: resolves its three inputs from the
environment by core name and renders. -/
def coreInfoComponent (env : AppEnv) (coreName : String) : Node :=
  renderCoreInfo coreName (env.coreInfoOf coreName)
    (env.coreAuthorImageOf coreName) (env.inventoryItemOf coreName)

/-! ### Markup observers: reading back what a render contains -/

/-- If the row `n` is a labelled checkbox row (a `div.core-info__info-row`
holding a `strong` label and a checkbox `input`), return its label and
whether it renders checked. -/
def rowCheckboxState (n : Node) : Option (String × Bool) :=
  if tagOf n = "div" ∧ attrValue n "className" = some "core-info__info-row"
  then
    match childrenOf n with
    | [labelNode, inputNode] =>
        if tagOf inputNode = "input" ∧
           attrValue inputNode "type" = some "checkbox" then
          match childrenOf labelNode with
          | [Node.text label] =>
              some (label,
                decide (attrValue inputNode "checked" = some "true"))
          | _ => none
        else none
    | _ => none
  else none

/-- All labelled checkbox rows of a row list, with their checked states. -/
def sectionCheckboxStates (rows : List Node) : List (String × Bool) :=
  rows.filterMap rowCheckboxState

/-- The text of the `strong` label heading a row, if the row starts with
one. -/
def strongLabelOf (n : Node) : Option String :=
  match childrenOf n with
  | labelNode :: _ =>
      if tagOf labelNode = "strong" then
        match childrenOf labelNode with
        | [Node.text l] => some l
        | _ => none
      else none
  | [] => none

/-- Whether `n` is an info row headed by the `strong` label `lbl`. -/
def isInfoRowLabeled (lbl : String) (n : Node) : Bool :=
  decide (tagOf n = "div") &&
  decide (attrValue n "className" = some "core-info__info-row") &&
  decide (strongLabelOf n = some lbl)

/-- The URL rows of a row list. -/
def urlRowsOf (rows : List Node) : List Node :=
  rows.filter (isInfoRowLabeled "URL:")

/-- The release-date rows of a row list. -/
def dateReleaseRowsOf (rows : List Node) : List Node :=
  rows.filter (isInfoRowLabeled "Release Date:")

/-- The `Releases` elements of a row list. -/
def releasesPanelsOf (rows : List Node) : List Node :=
  rows.filter (fun n => decide (tagOf n = "Releases"))

/-- The `Link` target and link text of a row, when the row's second child
is a `Link` element with a single text child. -/
def rowLinkTargetAndText (n : Node) : Option (String × String) :=
  match childrenOf n with
  | [_, linkNode] =>
      if tagOf linkNode = "Link" then
        match attrValue linkNode "href", childrenOf linkNode with
        | some href, [Node.text t] => some (href, t)
        | _, _ => none
      else none
  | _ => none

/-- The labels of the three rows whose checkboxes directly mirror a
framework capability flag (the cartridge row's state is derived from the
adapter identifier instead). -/
def capabilityLabels : List String :=
  ["Supports Sleep:", "Supports Dock:", "Supports Dock Analog:"]

/-! ### Concrete records used to evaluate the definitions -/

/-- A concrete framework block: all capabilities on, cartridge adapter 0. -/
def sampleFramework : Framework :=
  { sleep_supported := true
    dock := { supported := true, analog_output := false }
    hardware := { cartridge_adapter := 0 } }

/-- A concrete core whose `url` and `date_release` are both present but
equal to the empty string. -/
def emptyUrlCoreInfo : CoreInfoRecord :=
  { core :=
      { metadata :=
          { shortname := "GB"
            description := "Game Boy for the Pocket"
            author := "spiritualized1997"
            url := some ""
            date_release := some ""
            platform_ids := ["gb"] }
        framework := sampleFramework } }

/-- A concrete core with an absent `url` and a present, non-empty
`date_release`. -/
def noUrlCoreInfo : CoreInfoRecord :=
  { core :=
      { metadata :=
          { shortname := "SNES"
            description := "SNES for the Pocket"
            author := "agg23"
            url := none
            date_release := some "2023-01-01"
            platform_ids := ["snes"] }
        framework := sampleFramework } }

/-- A concrete core with a present, non-empty `url` and an absent
`date_release`. -/
def sampleCoreInfo : CoreInfoRecord :=
  { core :=
      { metadata :=
          { shortname := "NES"
            description := "NES for the Pocket"
            author := "agg23"
            url := some "https://example.com/core"
            date_release := none
            platform_ids := ["nes"] }
        framework :=
          { sleep_supported := false
            dock := { supported := true, analog_output := true }
            hardware := { cartridge_adapter := -1 } } } }

/-- An inventory item hosted on the supported git platform. -/
def githubInventoryItem : InventoryItem :=
  { repository := { platform := "github" } }

/-- An inventory item hosted elsewhere. -/
def gitlabInventoryItem : InventoryItem :=
  { repository := { platform := "gitlab" } }

/-- A concrete environment whose unrelated recoil state is one value. -/
def sampleEnvA : AppEnv :=
  { coreInfoOf := fun _ => sampleCoreInfo
    coreAuthorImageOf := fun _ => "authors/agg23.png"
    inventoryItemOf := fun _ => some githubInventoryItem
    recoil := initialRecoilState 100 }

/-- The same resolved core inputs as `sampleEnvA` but a different pocket
path, colour and invalidation counters. -/
def sampleEnvB : AppEnv :=
  { coreInfoOf := fun _ => sampleCoreInfo
    coreAuthorImageOf := fun _ => "authors/agg23.png"
    inventoryItemOf := fun _ => some githubInventoryItem
    recoil :=
      { pocketPath := some "/media/pocket"
        pocketModelColour := "white"
        fileSystemInvalidation := 7
        inventoryInvalidation := 8
        configInvalidation := 9 } }

/-! ### Helper lemmas: how the observers evaluate on each kind of row -/

theorem rowCheckboxState_descriptionRow (d : String) :
    rowCheckboxState (descriptionRow d) = none := rfl

theorem rowCheckboxState_versionRow (n : String) :
    rowCheckboxState (versionRow n) = none := rfl

theorem rowCheckboxState_authorRow (src au : String) :
    rowCheckboxState (authorRow src au) = none := rfl

theorem rowCheckboxState_urlInfoRow (u : String) :
    rowCheckboxState (urlInfoRow u) = none := rfl

theorem rowCheckboxState_dateReleaseInfoRow (d : String) :
    rowCheckboxState (dateReleaseInfoRow d) = none := rfl

theorem rowCheckboxState_releasesPanel (it : InventoryItem) :
    rowCheckboxState (releasesPanel it) = none := rfl

theorem rowCheckboxState_checkboxRow (l : String) (b : Bool) :
    rowCheckboxState (checkboxRow l b) = some (l, b) := by
  cases b <;> rfl

/-- The checkbox rows of the rendered info section, with their checked
states, are exactly the four rows of the source, in order. -/
theorem sectionCheckboxStates_infoSectionRows (coreName : String)
    (info : CoreInfoRecord) (a : String) (inv : Option InventoryItem) :
    sectionCheckboxStates (infoSectionRows coreName info a inv) =
      [("Supports Sleep:", info.core.framework.sleep_supported),
       ("Supports Dock:", info.core.framework.dock.supported),
       ("Supports Dock Analog:", info.core.framework.dock.analog_output),
       ("Supports Cartridges:",
         info.core.framework.hardware.cartridge_adapter != -1)] := by
  obtain ⟨⟨⟨sn, de, au, url, dr, pids⟩, sl, ⟨ds, da⟩, ⟨ca⟩⟩⟩ := info
  rcases url with _ | u <;> rcases dr with _ | d <;> rcases inv with _ | it <;>
    simp only [infoSectionRows, urlInfoRows, dateReleaseInfoRows,
      releasesNodes] <;>
    (try split_ifs) <;>
    simp [sectionCheckboxStates, rowCheckboxState_descriptionRow,
      rowCheckboxState_versionRow, rowCheckboxState_authorRow,
      rowCheckboxState_urlInfoRow, rowCheckboxState_dateReleaseInfoRow,
      rowCheckboxState_releasesPanel, rowCheckboxState_checkboxRow]

/-- The URL rows of the rendered info section are exactly what the
conditional URL fragment produces. -/
theorem urlRowsOf_infoSectionRows (coreName : String) (info : CoreInfoRecord)
    (a : String) (inv : Option InventoryItem) :
    urlRowsOf (infoSectionRows coreName info a inv) =
      urlInfoRows info.core.metadata := by
  obtain ⟨⟨⟨sn, de, au, url, dr, pids⟩, sl, ⟨ds, da⟩, ⟨ca⟩⟩⟩ := info
  rcases url with _ | u <;> rcases dr with _ | d <;> rcases inv with _ | it <;>
    simp only [infoSectionRows, urlInfoRows, dateReleaseInfoRows,
      releasesNodes] <;>
    (try split_ifs) <;> rfl

/-- The release-date rows of the rendered info section are exactly what the
conditional release-date fragment produces. -/
theorem dateReleaseRowsOf_infoSectionRows (coreName : String)
    (info : CoreInfoRecord) (a : String) (inv : Option InventoryItem) :
    dateReleaseRowsOf (infoSectionRows coreName info a inv) =
      dateReleaseInfoRows info.core.metadata := by
  obtain ⟨⟨⟨sn, de, au, url, dr, pids⟩, sl, ⟨ds, da⟩, ⟨ca⟩⟩⟩ := info
  rcases url with _ | u <;> rcases dr with _ | d <;> rcases inv with _ | it <;>
    simp only [infoSectionRows, urlInfoRows, dateReleaseInfoRows,
      releasesNodes] <;>
    (try split_ifs) <;> rfl

/-- The `Releases` elements of the rendered info section are exactly what
the conditional releases fragment produces. -/
theorem releasesPanelsOf_infoSectionRows (coreName : String)
    (info : CoreInfoRecord) (a : String) (inv : Option InventoryItem) :
    releasesPanelsOf (infoSectionRows coreName info a inv) =
      releasesNodes inv := by
  obtain ⟨⟨⟨sn, de, au, url, dr, pids⟩, sl, ⟨ds, da⟩, ⟨ca⟩⟩⟩ := info
  rcases url with _ | u <;> rcases dr with _ | d <;> rcases inv with _ | it <;>
    simp only [infoSectionRows, urlInfoRows, dateReleaseInfoRows,
      releasesNodes] <;>
    (try split_ifs) <;> rfl

/-! ### Claim theorems -/

/-- Claim C1: in the rendered Core Info section the cartridge-support
checkbox is checked exactly when the cartridge-adapter identifier differs
from the reserved no-adapter sentinel (encoded `-1` in the code), and is
unchecked exactly at the sentinel. -/
theorem cartridge_checkbox_checked_iff_adapter_present (coreName : String)
    (info : CoreInfoRecord) (a : String) (inv : Option InventoryItem) :
    ((sectionCheckboxStates (infoSectionRows coreName info a inv)).lookup
        "Supports Cartridges:" = some true ↔
      info.core.framework.hardware.cartridge_adapter ≠ -1) ∧
    ((sectionCheckboxStates (infoSectionRows coreName info a inv)).lookup
        "Supports Cartridges:" = some false ↔
      info.core.framework.hardware.cartridge_adapter = -1) := by
  rw [sectionCheckboxStates_infoSectionRows]
  constructor <;> simp [List.lookup]

/-- Claim C2: clicking any of the four menu labels sets the `viewName`
state to exactly that label; afterwards exactly that label's menu item
carries the active class (string equality is the only matching rule), and
clicking the same label again leaves the state unchanged. -/
theorem click_menu_label_selects_and_is_idempotent (s v : String)
    (hv : v ∈ views) :
    clickMenuItem s v = v ∧
    (∀ w, menuItemClass (clickMenuItem s v) w = activeMenuItemClass ↔
      w = v) ∧
    clickMenuItem (clickMenuItem s v) v = clickMenuItem s v := by
  refine ⟨rfl, fun w => ?_, rfl⟩
  simp only [clickMenuItem, menuItemClass]
  by_cases h : v = w
  · rw [if_pos h]
    exact iff_of_true (by decide) h.symm
  · rw [if_neg h]
    exact iff_of_false (by decide) (fun hw => h hw.symm)

/-- Witness for C2 at the initial state and the label "Games". -/
theorem click_menu_label_selects_and_is_idempotent_witness :
    clickMenuItem "" "Games" = "Games" ∧
    (menuItemClass (clickMenuItem "" "Games") "Games" = activeMenuItemClass ↔
      "Games" = "Games") ∧
    (menuItemClass (clickMenuItem "" "Games") "Cores" = activeMenuItemClass ↔
      "Cores" = "Games") ∧
    clickMenuItem (clickMenuItem "" "Games") "Games" =
      clickMenuItem "" "Games" := by
  have h := click_menu_label_selects_and_is_idempotent "" "Games" (by decide)
  exact ⟨h.1, h.2.1 "Games", h.2.1 "Cores", h.2.2⟩

/-- Claim C3: the `viewName` state starts as the empty string, and whenever
it differs from "Screenshots" the content region renders no children. -/
theorem layout_initial_state_and_empty_content :
    initialViewName = "" ∧
    ∀ s, s ≠ "Screenshots" → layoutContentChildren s = [] := by
  refine ⟨rfl, fun s h => ?_⟩
  simp [layoutContentChildren, h]

/-- Witness for C3 at the initial state and at the label "Games". -/
theorem layout_initial_state_and_empty_content_witness :
    initialViewName = "" ∧ layoutContentChildren "" = [] ∧
    layoutContentChildren "Games" = [] := by
  have h := layout_initial_state_and_empty_content
  exact ⟨h.1, h.2 "" (by decide), h.2 "Games" (by decide)⟩

/-- Counterexample to C4 as stated: `emptyUrlCoreInfo` has a non-null URL
field (it is the empty string), yet the rendered info section contains zero
URL rows, because the source guards the row on JavaScript truthiness. -/
theorem url_row_missing_for_present_empty_url :
    emptyUrlCoreInfo.core.metadata.url ≠ none ∧
    urlRowsOf (infoSectionRows "GB" emptyUrlCoreInfo "img.png" none) =
      [] := by
  refine ⟨by decide, rfl⟩

/-- Claim C4 (amended): a URL that is null/absent or equal to the empty
string renders zero URL rows; a present, non-empty URL renders exactly one
URL row whose `Link` carries the URL as both target and text; a release
date that is null/absent or empty renders zero release-date rows and a
present, non-empty one exactly one row. -/
theorem url_and_date_rows_rendered_iff_present_nonempty (coreName : String)
    (info : CoreInfoRecord) (a : String) (inv : Option InventoryItem) :
    (info.core.metadata.url = none →
      urlRowsOf (infoSectionRows coreName info a inv) = []) ∧
    (∀ u, info.core.metadata.url = some u → u ≠ "" →
      urlRowsOf (infoSectionRows coreName info a inv) = [urlInfoRow u] ∧
      rowLinkTargetAndText (urlInfoRow u) = some (u, u)) ∧
    (info.core.metadata.url = some "" →
      urlRowsOf (infoSectionRows coreName info a inv) = []) ∧
    (info.core.metadata.date_release = none →
      dateReleaseRowsOf (infoSectionRows coreName info a inv) = []) ∧
    (info.core.metadata.date_release = some "" →
      dateReleaseRowsOf (infoSectionRows coreName info a inv) = []) ∧
    ∀ d, info.core.metadata.date_release = some d → d ≠ "" →
      dateReleaseRowsOf (infoSectionRows coreName info a inv) =
        [dateReleaseInfoRow d] := by
  simp only [urlRowsOf_infoSectionRows, dateReleaseRowsOf_infoSectionRows]
  refine ⟨fun h => by simp [urlInfoRows, h],
    fun u hu hne => ⟨by simp [urlInfoRows, hu, hne], rfl⟩,
    fun h => by simp [urlInfoRows, h],
    fun h => by simp [dateReleaseInfoRows, h],
    fun h => by simp [dateReleaseInfoRows, h],
    fun d hd hne => by simp [dateReleaseInfoRows, hd, hne]⟩

/-- Witness for the amended C4 at cores with a non-empty URL, an absent
URL, an empty-string URL, an absent release date, an empty-string release
date and a non-empty release date. -/
theorem url_and_date_rows_rendered_iff_present_nonempty_witness :
    urlRowsOf (infoSectionRows "NES" sampleCoreInfo "a.png" none) =
      [urlInfoRow "https://example.com/core"] ∧
    rowLinkTargetAndText (urlInfoRow "https://example.com/core") =
      some ("https://example.com/core", "https://example.com/core") ∧
    dateReleaseRowsOf (infoSectionRows "NES" sampleCoreInfo "a.png" none) =
      [] ∧
    urlRowsOf (infoSectionRows "SNES" noUrlCoreInfo "a.png" none) = [] ∧
    dateReleaseRowsOf (infoSectionRows "SNES" noUrlCoreInfo "a.png" none) =
      [dateReleaseInfoRow "2023-01-01"] ∧
    urlRowsOf (infoSectionRows "GB" emptyUrlCoreInfo "x.png" none) = [] ∧
    dateReleaseRowsOf (infoSectionRows "GB" emptyUrlCoreInfo "x.png" none) =
      [] := by
  have h1 := url_and_date_rows_rendered_iff_present_nonempty "NES"
    sampleCoreInfo "a.png" none
  have h2 := url_and_date_rows_rendered_iff_present_nonempty "SNES"
    noUrlCoreInfo "a.png" none
  have h3 := url_and_date_rows_rendered_iff_present_nonempty "GB"
    emptyUrlCoreInfo "x.png" none
  exact ⟨(h1.2.1 _ rfl (by decide)).1, (h1.2.1 _ rfl (by decide)).2,
    h1.2.2.2.1 rfl, h2.1 rfl, h2.2.2.2.2.2 _ rfl (by decide),
    h3.2.2.1 rfl, h3.2.2.2.2.1 rfl⟩

/-- Claim C5: the `Releases` sub-panel is rendered exactly when an
inventory item exists and its repository platform is "github"; a missing
item or any other platform renders nothing in its place. -/
theorem releases_subpanel_iff_github_inventory (coreName : String)
    (info : CoreInfoRecord) (a : String) (inv : Option InventoryItem) :
    (inv = none →
      releasesPanelsOf (infoSectionRows coreName info a inv) = []) ∧
    ∀ it, inv = some it →
      (it.repository.platform = "github" →
        releasesPanelsOf (infoSectionRows coreName info a inv) =
          [releasesPanel it]) ∧
      (it.repository.platform ≠ "github" →
        releasesPanelsOf (infoSectionRows coreName info a inv) = []) := by
  simp only [releasesPanelsOf_infoSectionRows]
  refine ⟨fun h => by simp [releasesNodes, h],
    fun it hit => ⟨fun hg => by simp [releasesNodes, hit, hg],
      fun hg => by simp [releasesNodes, hit, hg]⟩⟩

/-- Witness for C5 at a github item, a gitlab item and a missing item. -/
theorem releases_subpanel_iff_github_inventory_witness :
    releasesPanelsOf (infoSectionRows "NES" sampleCoreInfo "a.png"
        (some githubInventoryItem)) = [releasesPanel githubInventoryItem] ∧
    releasesPanelsOf (infoSectionRows "NES" sampleCoreInfo "a.png"
        (some gitlabInventoryItem)) = [] ∧
    releasesPanelsOf (infoSectionRows "NES" sampleCoreInfo "a.png" none) =
      [] := by
  have hg := releases_subpanel_iff_github_inventory "NES" sampleCoreInfo
    "a.png" (some githubInventoryItem)
  have hl := releases_subpanel_iff_github_inventory "NES" sampleCoreInfo
    "a.png" (some gitlabInventoryItem)
  have hn := releases_subpanel_iff_github_inventory "NES" sampleCoreInfo
    "a.png" none
  exact ⟨(hg.2 _ rfl).1 rfl, (hl.2 _ rfl).2 (by decide), hn.1 rfl⟩

/-- Claim C6: bumping any one of the three invalidation counters with a
fresh clock value strictly greater than its previous value yields a
strictly greater counter and leaves the other two counters unchanged. -/
theorem invalidation_bumps_strictly_increase_and_are_independent
    (s : RecoilState) (t1 t2 t3 : Nat)
    (h1 : s.fileSystemInvalidation < t1)
    (h2 : s.inventoryInvalidation < t2)
    (h3 : s.configInvalidation < t3) :
    (s.fileSystemInvalidation <
        (bumpFileSystemInvalidation s t1).fileSystemInvalidation ∧
      (bumpFileSystemInvalidation s t1).inventoryInvalidation =
        s.inventoryInvalidation ∧
      (bumpFileSystemInvalidation s t1).configInvalidation =
        s.configInvalidation) ∧
    (s.inventoryInvalidation <
        (bumpInventoryInvalidation s t2).inventoryInvalidation ∧
      (bumpInventoryInvalidation s t2).fileSystemInvalidation =
        s.fileSystemInvalidation ∧
      (bumpInventoryInvalidation s t2).configInvalidation =
        s.configInvalidation) ∧
    (s.configInvalidation <
        (bumpConfigInvalidation s t3).configInvalidation ∧
      (bumpConfigInvalidation s t3).fileSystemInvalidation =
        s.fileSystemInvalidation ∧
      (bumpConfigInvalidation s t3).inventoryInvalidation =
        s.inventoryInvalidation) :=
  ⟨⟨h1, rfl, rfl⟩, ⟨h2, rfl, rfl⟩, ⟨h3, rfl, rfl⟩⟩

/-- Witness for C6 at the initial store and clock values 1, 2, 3. -/
theorem invalidation_bumps_witness :
    ((initialRecoilState 0).fileSystemInvalidation <
        (bumpFileSystemInvalidation (initialRecoilState 0)
          1).fileSystemInvalidation ∧
      (bumpFileSystemInvalidation (initialRecoilState 0)
          1).inventoryInvalidation =
        (initialRecoilState 0).inventoryInvalidation ∧
      (bumpFileSystemInvalidation (initialRecoilState 0)
          1).configInvalidation =
        (initialRecoilState 0).configInvalidation) ∧
    ((initialRecoilState 0).inventoryInvalidation <
        (bumpInventoryInvalidation (initialRecoilState 0)
          2).inventoryInvalidation ∧
      (bumpInventoryInvalidation (initialRecoilState 0)
          2).fileSystemInvalidation =
        (initialRecoilState 0).fileSystemInvalidation ∧
      (bumpInventoryInvalidation (initialRecoilState 0)
          2).configInvalidation =
        (initialRecoilState 0).configInvalidation) ∧
    ((initialRecoilState 0).configInvalidation <
        (bumpConfigInvalidation (initialRecoilState 0)
          3).configInvalidation ∧
      (bumpConfigInvalidation (initialRecoilState 0)
          3).fileSystemInvalidation =
        (initialRecoilState 0).fileSystemInvalidation ∧
      (bumpConfigInvalidation (initialRecoilState 0)
          3).inventoryInvalidation =
        (initialRecoilState 0).inventoryInvalidation) :=
  invalidation_bumps_strictly_increase_and_are_independent
    (initialRecoilState 0) 1 2 3 (by decide) (by decide) (by decide)

/-- Claim C7: the rendered info section contains exactly four labelled
checkboxes; the three capability checkboxes mirror, in order, the
sleep-supported, dock-supported and dock analog-output flags, and they are
exactly the checkboxes carrying a capability label. -/
theorem capability_checkboxes_mirror_framework_flags (coreName : String)
    (info : CoreInfoRecord) (a : String) (inv : Option InventoryItem) :
    sectionCheckboxStates (infoSectionRows coreName info a inv) =
      [("Supports Sleep:", info.core.framework.sleep_supported),
       ("Supports Dock:", info.core.framework.dock.supported),
       ("Supports Dock Analog:", info.core.framework.dock.analog_output),
       ("Supports Cartridges:",
         info.core.framework.hardware.cartridge_adapter != -1)] ∧
    (sectionCheckboxStates (infoSectionRows coreName info a inv)).filter
        (fun p => decide (p.1 ∈ capabilityLabels)) =
      [("Supports Sleep:", info.core.framework.sleep_supported),
       ("Supports Dock:", info.core.framework.dock.supported),
       ("Supports Dock Analog:",
         info.core.framework.dock.analog_output)] := by
  have h := sectionCheckboxStates_infoSectionRows coreName info a inv
  refine ⟨h, ?_⟩
  rw [h]
  rfl

/-- Claim C8: every state of the `viewName` reachable through the Layout UI
is the empty string or one of the four menu labels, every click lands on a
menu label, and the empty string is not a menu label (so no click returns
to it). -/
theorem layout_view_name_invariant :
    (∀ s, LayoutReachable s → s = "" ∨ s ∈ views) ∧
    (∀ s v, v ∈ views → clickMenuItem s v ∈ views) ∧
    "" ∉ views := by
  refine ⟨fun s h => ?_, fun s v hv => hv, by decide⟩
  induction h with
  | init => exact Or.inl rfl
  | click s v hs hv ih => exact Or.inr hv

/-- Witness for C8 at the initial state and a click on "Games". -/
theorem layout_view_name_invariant_witness :
    ("" = "" ∨ "" ∈ views) ∧ clickMenuItem "" "Games" ∈ views := by
  have h := layout_view_name_invariant
  exact ⟨h.1 "" LayoutReachable.init, h.2.1 "" "Games" (by decide)⟩

/-- Claim C9: a URL or release-date field that is present but equal to the
empty string renders no corresponding row, since the source tests
JavaScript truthiness. -/
theorem empty_string_url_or_date_renders_no_row (coreName : String)
    (info : CoreInfoRecord) (a : String) (inv : Option InventoryItem) :
    (info.core.metadata.url = some "" →
      urlRowsOf (infoSectionRows coreName info a inv) = []) ∧
    (info.core.metadata.date_release = some "" →
      dateReleaseRowsOf (infoSectionRows coreName info a inv) = []) := by
  simp only [urlRowsOf_infoSectionRows, dateReleaseRowsOf_infoSectionRows]
  exact ⟨fun h => by simp [urlInfoRows, h],
    fun h => by simp [dateReleaseInfoRows, h]⟩

/-- Witness for C9 at a core whose URL and release date are both the empty
string. -/
theorem empty_string_url_or_date_renders_no_row_witness :
    urlRowsOf (infoSectionRows "GB" emptyUrlCoreInfo "img.png" none) = [] ∧
    dateReleaseRowsOf (infoSectionRows "GB" emptyUrlCoreInfo "img.png" none) =
      [] := by
  have h := empty_string_url_or_date_renders_no_row "GB" emptyUrlCoreInfo
    "img.png" none
  exact ⟨h.1 rfl, h.2 rfl⟩

/-- Claim C10: the `CoreInfo` render is a function of the resolved core
record, author image source and inventory item alone; environments agreeing
on those three resolutions render identical markup regardless of the rest
of the store. -/
theorem core_info_render_deterministic (env1 env2 : AppEnv)
    (coreName : String)
    (h1 : env1.coreInfoOf coreName = env2.coreInfoOf coreName)
    (h2 : env1.coreAuthorImageOf coreName = env2.coreAuthorImageOf coreName)
    (h3 : env1.inventoryItemOf coreName = env2.inventoryItemOf coreName) :
    coreInfoComponent env1 coreName = coreInfoComponent env2 coreName := by
  unfold coreInfoComponent
  rw [h1, h2, h3]

/-- Witness for C10 at two environments differing in pocket path, colour
and all three invalidation counters. -/
theorem core_info_render_deterministic_witness :
    coreInfoComponent sampleEnvA "NES" = coreInfoComponent sampleEnvB "NES" :=
  core_info_render_deterministic sampleEnvA sampleEnvB "NES" rfl rfl rfl

end PocketSync
